import Mathlib

/-!
# Diagram Builder System — shallow embedding and verification

A shallow embedding of `src/main.cpp` of the diagram-builder demo
(Proxy, Flyweight, Builder, Singleton, Factory patterns).

Modelling choices, read off the C++ source:
* All observable behaviour is console output; each operation returns the
  list of lines it prints (`List String`, one entry per printed line,
  trailing newline dropped) together with the successor state.
* The mutable process-wide state consists of the flyweight pool owned by
  the `FigureFactory` singleton and the coordinate fields of the two
  singleton builders (`BarBuilder`, `LineBuilder`).  It is gathered in
  `SysState` and threaded explicitly.
* `shared_ptr` reference identity is modelled by tagging each freshly
  allocated `FlyweightFigure` with a unique allocation number `addr`
  (a fresh heap address); two figures are "the same instance" iff they
  are equal as structures, in particular have the same `addr`.
* `std::map<string, shared_ptr<FlyweightFigure>>` is modelled as an
  association list `List (String × FlyweightFigure)`; insertion only ever
  happens for a key not yet present, so lookup order is immaterial.
* `DiagramFactory` instances carry only a stateless `GraphFactory`
  member, exactly as in the source, so the type is a trivial structure;
  `GraphFactory` has no data members at all.
-/

/-- Variant of a flyweight figure: `ColoredFigure` or `BWFigure` in the
source. -/
inductive FigVariant : Type
  | colored
  | bw
  deriving DecidableEq, Repr

/-- A flyweight figure object.  `addr` models the heap address of the
`shared_ptr` target (reference identity); `ftype` is the `type` string
stored by the `FlyweightFigure` constructor. -/
structure FlyweightFigure where
  addr : Nat
  variant : FigVariant
  ftype : String
  deriving DecidableEq, Repr

/-- `ColoredFigure::draw` / `BWFigure::draw`: the single line printed. -/
def FlyweightFigure.draw (f : FlyweightFigure) : List String :=
  match f.variant with
  | .colored => ["[Colored Flyweight] Drawing colored figure of type: " ++ f.ftype]
  | .bw => ["[B/W Flyweight] Drawing black and white figure of type: " ++ f.ftype]

/-- The whole mutable process state: the flyweight pool (with the next
fresh heap address) and the two singleton builders' coordinate fields. -/
structure SysState where
  pool : List (String × FlyweightFigure)
  nextAddr : Nat
  barCoord : String
  lineCoord : String
  deriving DecidableEq, Repr

/-- The state at process start: empty pool, default-constructed (empty)
coordinate strings. -/
def initState : SysState :=
  { pool := [], nextAddr := 0, barCoord := "", lineCoord := "" }

/-- Lookup in the flyweight pool, modelling `pool.find(type)` /
`pool[type]` on the `std::map`. -/
def poolLookup : List (String × FlyweightFigure) → String → Option FlyweightFigure
  | [], _ => none
  | (k, f) :: rest, t => if k = t then some f else poolLookup rest t

/-- Does `pat` occur at the very start of `text`? -/
def matchesAt : List Char → List Char → Bool
  | [], _ => true
  | _ :: _, [] => false
  | p :: ps, c :: cs => p = c && matchesAt ps cs

/-- Does `pat` occur as a contiguous substring of `text`? -/
def containsSub (pat : List Char) : List Char → Bool
  | [] => pat.isEmpty
  | c :: cs => matchesAt pat (c :: cs) || containsSub pat cs

/-- `type.find("Color") != string::npos`: the key contains the substring
`"Color"`. -/
def containsColor (t : String) : Bool :=
  containsSub "Color".toList t.toList

/-- `FlyweightFactory::getFigure`: return the cached figure for `type`,
creating (colored iff the key contains `"Color"`) and caching it first
when absent. -/
def FlyweightFactory.getFigure (s : SysState) (type : String) :
    FlyweightFigure × SysState :=
  match poolLookup s.pool type with
  | some f => (f, s)
  | none =>
      let f : FlyweightFigure :=
        if containsColor type then
          { addr := s.nextAddr, variant := .colored, ftype := type }
        else
          { addr := s.nextAddr, variant := .bw, ftype := type }
      (f, { s with pool := (type, f) :: s.pool, nextAddr := s.nextAddr + 1 })

/-- The fixed message of `DrawGraph::draw` (the draw proxy). -/
def DrawGraph.drawMsg : String := "[Graph Proxy] Drawing graphical + textual stub"

/-- `DrawGraph::draw`: prints the fixed proxy message; stateless. -/
def DrawGraph.draw : List String := [DrawGraph.drawMsg]

/-- The line printed by the real `Graph::draw` (never reached through
`DiagramFactory`). -/
def Graph.drawMsg : String := "[Graph] Drawing graphical representation."

/-- `Graph::draw` of the real `Graph` diagram class. -/
def Graph.draw : List String := [Graph.drawMsg]

/-- The line printed by the real `Figure::draw` (never reached through
`DiagramFactory`). -/
def Figure.drawMsg : String := "[Figure Stub] Drawing textual stub."

/-- `Figure::draw` of the real `Figure` diagram class. -/
def Figure.draw : List String := [Figure.drawMsg]

/-- The abstract `Builder` interface: each virtual method, as a function
on the global state (`setCoord` mutates, the others only print). -/
structure Builder where
  setCoord : String → SysState → SysState
  «calc» : SysState → List String
  draw : SysState → List String
  drag : SysState → List String

/-- `BarBuilder::setCoord`: overwrite the Bar singleton's coordinate. -/
def BarBuilder.setCoord (c : String) (s : SysState) : SysState :=
  { s with barCoord := c }

/-- `BarBuilder::calc`. -/
def BarBuilder.«calc» (s : SysState) : List String :=
  ["Bar calc at " ++ s.barCoord]

/-- `BarBuilder::draw`: delegates to the proxy. -/
def BarBuilder.draw (_ : SysState) : List String := DrawGraph.draw

/-- `BarBuilder::drag`. -/
def BarBuilder.drag (s : SysState) : List String :=
  ["Drag Bar at " ++ s.barCoord]

/-- The `BarBuilder` singleton, packaged as a `Builder`. -/
def BarBuilder.builder : Builder :=
  ⟨BarBuilder.setCoord, BarBuilder.«calc», BarBuilder.draw, BarBuilder.drag⟩

/-- `LineBuilder::setCoord`: overwrite the Line singleton's coordinate. -/
def LineBuilder.setCoord (c : String) (s : SysState) : SysState :=
  { s with lineCoord := c }

/-- `LineBuilder::calc`. -/
def LineBuilder.«calc» (s : SysState) : List String :=
  ["Line calc at " ++ s.lineCoord]

/-- `LineBuilder::draw`: delegates to the proxy. -/
def LineBuilder.draw (_ : SysState) : List String := DrawGraph.draw

/-- `LineBuilder::drag`. -/
def LineBuilder.drag (s : SysState) : List String :=
  ["Drag Line at " ++ s.lineCoord]

/-- The `LineBuilder` singleton, packaged as a `Builder`. -/
def LineBuilder.builder : Builder :=
  ⟨LineBuilder.setCoord, LineBuilder.«calc», LineBuilder.draw, LineBuilder.drag⟩

/-- `Director::construct(type, coord)`: the fixed four-step sequence
`setCoord; calc; draw; drag` on the bound builder.  The `type` argument
is unused, as in the source. -/
def Director.construct (b : Builder) (type coord : String) (s : SysState) :
    List String × SysState :=
  let s1 := b.setCoord coord s
  (b.«calc» s1 ++ b.draw s1 ++ b.drag s1, s1)

/-- `GraphFactory::createGraph`: bind a transient `Director` to the Bar
or Line singleton builder by exact string match and run `construct`;
silently do nothing for any other type. -/
def GraphFactory.createGraph (type coord : String) (s : SysState) :
    List String × SysState :=
  if type = "Bar" then Director.construct BarBuilder.builder type coord s
  else if type = "Line" then Director.construct LineBuilder.builder type coord s
  else ([], s)

/-- `FigureFactory::getFigure`: fetch (or create) the flyweight figure
for `type`, print the coordinate line, let the figure draw, and return
the shared figure handle. -/
def FigureFactory.getFigure (type coord : String) (s : SysState) :
    FlyweightFigure × List String × SysState :=
  let r := FlyweightFactory.getFigure s type
  (r.1, ("Coordinates: " ++ coord) :: (r.1).draw, r.2)

/-- `GraphFactory` has no data members; its instances are trivial. -/
structure GraphFactory where
  deriving DecidableEq, Repr

/-- `DiagramFactory` holds only a (stateless) `GraphFactory` member; the
flyweight pool lives in the `FigureFactory` process-wide singleton, not
in the instance. -/
structure DiagramFactory where
  graphFactory : GraphFactory
  deriving DecidableEq, Repr

/-- `DiagramFactory::createGraph`: delegate to the `GraphFactory`. -/
def DiagramFactory.createGraph (_df : DiagramFactory) (type coord : String)
    (s : SysState) : List String × SysState :=
  GraphFactory.createGraph type coord s

/-- `DiagramFactory::createFigure`: call `getFigure` on the
`FigureFactory` singleton, discarding the returned handle. -/
def DiagramFactory.createFigure (_df : DiagramFactory) (type coord : String)
    (s : SysState) : List String × SysState :=
  (FigureFactory.getFigure type coord s).2

/-- `DiagramFactory::getDiagram`: top-level dispatch on the element kind
by exact string match; silently do nothing for any other element. -/
def DiagramFactory.getDiagram (df : DiagramFactory) (element type coord : String)
    (s : SysState) : List String × SysState :=
  if element = "Graph" then df.createGraph type coord s
  else if element = "Figure" then df.createFigure type coord s
  else ([], s)

/-- Run a list of `getDiagram` requests (element, type, coord) in order,
threading the state. -/
def runOps (df : DiagramFactory) : List (String × String × String) → SysState → SysState
  | [], s => s
  | (e, t, c) :: rest, s => runOps df rest (df.getDiagram e t c s).2

/-- Run a list of `createGraph` requests (type, coord) in order. -/
def runGraphs : List (String × String) → SysState → SysState
  | [], s => s
  | (t, c) :: rest, s => runGraphs rest (GraphFactory.createGraph t c s).2

/-- The coordinate of the most recent request for builder type `bt` in a
request list, if any. -/
def lastCoordFor (bt : String) : List (String × String) → Option String
  | [] => none
  | (t, c) :: rest =>
      match lastCoordFor bt rest with
      | some c' => some c'
      | none => if t = bt then some c else none

/-- The variant `FlyweightFactory::getFigure` creates for a given key. -/
def expectedVariant (t : String) : FigVariant :=
  if containsColor t then .colored else .bw

/-- Pool well-formedness: every cached figure stores its own key as its
type and has the variant its key selects.  Holds at start and is
preserved by every operation. -/
def goodPool (p : List (String × FlyweightFigure)) : Prop :=
  ∀ kf ∈ p, (kf.2).ftype = kf.1 ∧ (kf.2).variant = expectedVariant kf.1

/-- A concrete cached figure, used to exercise pool-preservation
statements on a non-empty pool. -/
def sampleFig : FlyweightFigure := ⟨0, .bw, "SquareBW"⟩

/-- A concrete state whose pool already caches `sampleFig` under
`"SquareBW"`, as after one `getFigure "SquareBW"` call. -/
def sampleState : SysState :=
  { pool := [("SquareBW", sampleFig)], nextAddr := 1,
    barCoord := "", lineCoord := "" }

/-- A `DiagramFactory` instance (they are all observably equal; the
member `GraphFactory` is stateless). -/
def someDF : DiagramFactory := ⟨⟨⟩⟩

-- Sanity checks on concrete inputs.
example : containsColor "CircleColor" = true := by decide
example : containsColor "SquareBW" = false := by decide
example :
    (FlyweightFactory.getFigure initState "SquareBW").1 =
      { addr := 0, variant := .bw, ftype := "SquareBW" } := by decide

/-! ## Pool lemmas -/

/-- A successful pool lookup exhibits a pool entry. -/
lemma poolLookup_mem (p : List (String × FlyweightFigure)) (k : String)
    (f : FlyweightFigure) (h : poolLookup p k = some f) : (k, f) ∈ p := by
  induction p with
  | nil => cases h
  | cons kf rest ih =>
      obtain ⟨k', f'⟩ := kf
      by_cases hk : k' = k
      · subst hk
        have : f' = f := by simpa [poolLookup] using h
        subst this
        exact List.mem_cons_self _ _
      · have h' : poolLookup rest k = some f := by simpa [poolLookup, hk] using h
        exact List.mem_cons_of_mem _ (ih h')

/-- After `FlyweightFactory::getFigure`, the key is cached and maps to
the returned figure. -/
lemma getFigure_lookup_self (s : SysState) (t : String) :
    poolLookup (FlyweightFactory.getFigure s t).2.pool t =
      some (FlyweightFactory.getFigure s t).1 := by
  unfold FlyweightFactory.getFigure
  cases hp : poolLookup s.pool t with
  | some f => simp [hp]
  | none => simp [hp, poolLookup]

/-- A cache hit returns the cached figure and leaves the state alone. -/
lemma getFigure_cached (s : SysState) (t : String) (f : FlyweightFigure)
    (h : poolLookup s.pool t = some f) :
    FlyweightFactory.getFigure s t = (f, s) := by
  unfold FlyweightFactory.getFigure
  simp [h]

/-- `FlyweightFactory::getFigure` never disturbs existing pool entries. -/
lemma getFigure_pool_mono (s : SysState) (t k : String) (f : FlyweightFigure)
    (h : poolLookup s.pool k = some f) :
    poolLookup (FlyweightFactory.getFigure s t).2.pool k = some f := by
  unfold FlyweightFactory.getFigure
  cases hp : poolLookup s.pool t with
  | some g => simpa [hp] using h
  | none =>
      by_cases htk : t = k
      · subst htk
        rw [h] at hp
        cases hp
      · simpa [hp, poolLookup, htk] using h

/-- The pool after `FlyweightFactory::getFigure` either is unchanged (a
cache hit) or has exactly one new entry for the requested key (a miss). -/
lemma getFigure_pool_cases (s : SysState) (t : String) :
    (FlyweightFactory.getFigure s t).2.pool = s.pool ∨
      ∃ fg, poolLookup s.pool t = none ∧
        (FlyweightFactory.getFigure s t).2.pool = (t, fg) :: s.pool := by
  unfold FlyweightFactory.getFigure
  cases hp : poolLookup s.pool t with
  | some f => left; simp [hp]
  | none => right; exact ⟨_, rfl, rfl⟩

/-- The created/cached figure has the variant its key selects and stores
its key as its type (assuming all earlier entries do). -/
lemma getFigure_spec (s : SysState) (t : String) (h : goodPool s.pool) :
    (FlyweightFactory.getFigure s t).1.variant = expectedVariant t ∧
    (FlyweightFactory.getFigure s t).1.ftype = t := by
  unfold FlyweightFactory.getFigure
  cases hp : poolLookup s.pool t with
  | some f =>
      obtain ⟨h1, h2⟩ := h (t, f) (poolLookup_mem _ _ _ hp)
      exact ⟨h2, h1⟩
  | none =>
      by_cases hc : containsColor t
      · simp [hp, expectedVariant, hc]
      · simp [hp, expectedVariant, hc]

/-- Pool well-formedness is preserved by `FlyweightFactory::getFigure`. -/
lemma getFigure_goodPool (s : SysState) (t : String) (h : goodPool s.pool) :
    goodPool (FlyweightFactory.getFigure s t).2.pool := by
  unfold FlyweightFactory.getFigure
  cases hp : poolLookup s.pool t with
  | some f => simpa [hp] using h
  | none =>
      simp only [hp]
      intro kf hkf
      rcases List.mem_cons.mp hkf with heq | hmem
      · subst heq
        by_cases hc : containsColor t
        · simp [expectedVariant, hc]
        · simp [expectedVariant, hc]
      · exact h kf hmem

/-! ## Graph-path lemmas -/

/-- Evaluation of `createGraph "Bar"`: the four-step Director sequence on
the Bar singleton. -/
lemma createGraph_bar (c : String) (s : SysState) :
    GraphFactory.createGraph "Bar" c s =
      (["Bar calc at " ++ c, DrawGraph.drawMsg, "Drag Bar at " ++ c],
        { s with barCoord := c }) := rfl

/-- Evaluation of `createGraph "Line"`: the four-step Director sequence on
the Line singleton. -/
lemma createGraph_line (c : String) (s : SysState) :
    GraphFactory.createGraph "Line" c s =
      (["Line calc at " ++ c, DrawGraph.drawMsg, "Drag Line at " ++ c],
        { s with lineCoord := c }) := rfl

/-- The state after `createGraph`: only the selected builder's coordinate
field changes. -/
lemma createGraph_snd (t c : String) (s : SysState) :
    (GraphFactory.createGraph t c s).2 =
      if t = "Bar" then { s with barCoord := c }
      else if t = "Line" then { s with lineCoord := c }
      else s := by
  by_cases h1 : t = "Bar"
  · subst h1; rfl
  · by_cases h2 : t = "Line"
    · subst h2; rfl
    · simp [GraphFactory.createGraph, h1, h2]

/-- `createGraph` never touches the flyweight pool. -/
lemma createGraph_pool (t c : String) (s : SysState) :
    (GraphFactory.createGraph t c s).2.pool = s.pool := by
  rw [createGraph_snd]
  by_cases h1 : t = "Bar"
  · simp [h1]
  · by_cases h2 : t = "Line" <;> simp [h1, h2]

/-- `createGraph` updates the Bar coordinate exactly for type `"Bar"`. -/
lemma createGraph_barCoord (t c : String) (s : SysState) :
    (GraphFactory.createGraph t c s).2.barCoord =
      if t = "Bar" then c else s.barCoord := by
  rw [createGraph_snd]
  by_cases h1 : t = "Bar"
  · simp [h1]
  · by_cases h2 : t = "Line" <;> simp [h1, h2]

/-- `createGraph` updates the Line coordinate exactly for type `"Line"`. -/
lemma createGraph_lineCoord (t c : String) (s : SysState) :
    (GraphFactory.createGraph t c s).2.lineCoord =
      if t = "Line" then c else s.lineCoord := by
  rw [createGraph_snd]
  by_cases h1 : t = "Bar"
  · simp [h1]
  · by_cases h2 : t = "Line" <;> simp [h1, h2]

/-! ## Dispatch lemmas -/

/-- `getDiagram "Graph"` is exactly `GraphFactory::createGraph`. -/
lemma getDiagram_graph (df : DiagramFactory) (t c : String) (s : SysState) :
    df.getDiagram "Graph" t c s = GraphFactory.createGraph t c s := rfl

/-- `getDiagram "Figure"` prints the coordinate line, then the flyweight
figure's own line, and advances the flyweight state. -/
lemma getDiagram_figure (df : DiagramFactory) (t c : String) (s : SysState) :
    df.getDiagram "Figure" t c s =
      (("Coordinates: " ++ c) :: (FlyweightFactory.getFigure s t).1.draw,
        (FlyweightFactory.getFigure s t).2) := rfl

/-- No `getDiagram` call ever disturbs an existing pool entry. -/
lemma getDiagram_pool_mono (df : DiagramFactory) (e t c : String) (s : SysState)
    (k : String) (f : FlyweightFigure) (h : poolLookup s.pool k = some f) :
    poolLookup (df.getDiagram e t c s).2.pool k = some f := by
  unfold DiagramFactory.getDiagram DiagramFactory.createGraph DiagramFactory.createFigure
  by_cases h1 : e = "Graph"
  · simpa [h1, createGraph_pool] using h
  · by_cases h2 : e = "Figure"
    · simp only [h1, h2, if_false, if_true, if_neg, if_pos]
      exact getFigure_pool_mono s t k f h
    · simpa [h1, h2] using h

/-- Pool entries survive any sequence of `getDiagram` requests. -/
lemma runOps_pool_mono (df : DiagramFactory) (ops : List (String × String × String)) :
    ∀ (s : SysState) (k : String) (f : FlyweightFigure),
      poolLookup s.pool k = some f →
      poolLookup (runOps df ops s).pool k = some f := by
  induction ops with
  | nil => intro s k f h; exact h
  | cons p rest ih =>
      intro s k f h
      obtain ⟨e, t, c⟩ := p
      exact ih _ k f (getDiagram_pool_mono df e t c s k f h)

/-! ## Coordinate tracking through graph requests -/

/-- The Bar singleton's coordinate after a batch of `createGraph` calls
is the coordinate of the most recent `"Bar"` request (unchanged when
there is none). -/
lemma runGraphs_barCoord (ops : List (String × String)) :
    ∀ s : SysState,
      (runGraphs ops s).barCoord = (lastCoordFor "Bar" ops).getD s.barCoord := by
  induction ops with
  | nil => intro s; rfl
  | cons p rest ih =>
      intro s
      obtain ⟨t, c⟩ := p
      show (runGraphs rest (GraphFactory.createGraph t c s).2).barCoord = _
      rw [ih]
      cases hl : lastCoordFor "Bar" rest with
      | some c' => simp [lastCoordFor, hl]
      | none =>
          simp only [lastCoordFor, hl]
          rw [createGraph_barCoord]
          by_cases hb : t = "Bar"
          · simp [hb]
          · simp [hb]

/-- The Line singleton's coordinate after a batch of `createGraph` calls
is the coordinate of the most recent `"Line"` request (unchanged when
there is none). -/
lemma runGraphs_lineCoord (ops : List (String × String)) :
    ∀ s : SysState,
      (runGraphs ops s).lineCoord = (lastCoordFor "Line" ops).getD s.lineCoord := by
  induction ops with
  | nil => intro s; rfl
  | cons p rest ih =>
      intro s
      obtain ⟨t, c⟩ := p
      show (runGraphs rest (GraphFactory.createGraph t c s).2).lineCoord = _
      rw [ih]
      cases hl : lastCoordFor "Line" rest with
      | some c' => simp [lastCoordFor, hl]
      | none =>
          simp only [lastCoordFor, hl]
          rw [createGraph_lineCoord]
          by_cases hb : t = "Line"
          · simp [hb]
          · simp [hb]

/-! ## String distinctness helpers -/

/-- `String.data` distributes over append. -/
lemma data_append (p x : String) : (p ++ x).data = p.data ++ x.data := by
  cases p; cases x; rfl

/-- Two strings differing at a position inside the first one's fixed
part are unequal, whatever is appended to it. -/
lemma string_ne_of_append (p x b : String) (i : Nat) (hi : i < p.data.length)
    (hne : p.data[i]? ≠ b.data[i]?) : p ++ x ≠ b := by
  intro h
  apply hne
  have hd : p.data ++ x.data = b.data := by
    rw [← data_append]
    exact congrArg String.data h
  have := congrArg (fun l => l[i]?) hd
  simp only [List.getElem?_append] at this
  rw [if_pos hi] at this
  exact this

/-- The draw line of a colored figure. -/
lemma FlyweightFigure.draw_colored (f : FlyweightFigure)
    (hv : f.variant = .colored) :
    f.draw = ["[Colored Flyweight] Drawing colored figure of type: " ++ f.ftype] := by
  cases f with
  | mk a v t => cases hv; rfl

/-- The draw line of a black/white figure. -/
lemma FlyweightFigure.draw_bw (f : FlyweightFigure)
    (hv : f.variant = .bw) :
    f.draw = ["[B/W Flyweight] Drawing black and white figure of type: " ++ f.ftype] := by
  cases f with
  | mk a v t => cases hv; rfl

/-- Unknown graph types are a silent no-op. -/
lemma createGraph_other (t c : String) (s : SysState)
    (h1 : t ≠ "Bar") (h2 : t ≠ "Line") :
    GraphFactory.createGraph t c s = ([], s) := by
  simp [GraphFactory.createGraph, h1, h2]

/-- Unknown element kinds are a silent no-op. -/
lemma getDiagram_other (df : DiagramFactory) (e t c : String) (s : SysState)
    (h1 : e ≠ "Graph") (h2 : e ≠ "Figure") :
    df.getDiagram e t c s = ([], s) := by
  simp [DiagramFactory.getDiagram, h1, h2]

/-! ## The real diagram draw lines never appear in any reachable output -/

lemma graphMsg_ne_proxy : Graph.drawMsg ≠ DrawGraph.drawMsg := by decide

lemma figMsg_ne_proxy : Figure.drawMsg ≠ DrawGraph.drawMsg := by decide

lemma graphMsg_ne_barCalc (c : String) : Graph.drawMsg ≠ "Bar calc at " ++ c :=
  Ne.symm (string_ne_of_append _ c _ 0 (by decide) (by decide))

lemma figMsg_ne_barCalc (c : String) : Figure.drawMsg ≠ "Bar calc at " ++ c :=
  Ne.symm (string_ne_of_append _ c _ 0 (by decide) (by decide))

lemma graphMsg_ne_dragBar (c : String) : Graph.drawMsg ≠ "Drag Bar at " ++ c :=
  Ne.symm (string_ne_of_append _ c _ 0 (by decide) (by decide))

lemma figMsg_ne_dragBar (c : String) : Figure.drawMsg ≠ "Drag Bar at " ++ c :=
  Ne.symm (string_ne_of_append _ c _ 0 (by decide) (by decide))

lemma graphMsg_ne_lineCalc (c : String) : Graph.drawMsg ≠ "Line calc at " ++ c :=
  Ne.symm (string_ne_of_append _ c _ 0 (by decide) (by decide))

lemma figMsg_ne_lineCalc (c : String) : Figure.drawMsg ≠ "Line calc at " ++ c :=
  Ne.symm (string_ne_of_append _ c _ 0 (by decide) (by decide))

lemma graphMsg_ne_dragLine (c : String) : Graph.drawMsg ≠ "Drag Line at " ++ c :=
  Ne.symm (string_ne_of_append _ c _ 0 (by decide) (by decide))

lemma figMsg_ne_dragLine (c : String) : Figure.drawMsg ≠ "Drag Line at " ++ c :=
  Ne.symm (string_ne_of_append _ c _ 0 (by decide) (by decide))

lemma graphMsg_ne_coord (c : String) : Graph.drawMsg ≠ "Coordinates: " ++ c :=
  Ne.symm (string_ne_of_append _ c _ 0 (by decide) (by decide))

lemma figMsg_ne_coord (c : String) : Figure.drawMsg ≠ "Coordinates: " ++ c :=
  Ne.symm (string_ne_of_append _ c _ 0 (by decide) (by decide))

lemma graphMsg_ne_colored (ft : String) :
    Graph.drawMsg ≠ "[Colored Flyweight] Drawing colored figure of type: " ++ ft :=
  Ne.symm (string_ne_of_append _ ft _ 1 (by decide) (by decide))

lemma figMsg_ne_colored (ft : String) :
    Figure.drawMsg ≠ "[Colored Flyweight] Drawing colored figure of type: " ++ ft :=
  Ne.symm (string_ne_of_append _ ft _ 1 (by decide) (by decide))

lemma graphMsg_ne_bwfig (ft : String) :
    Graph.drawMsg ≠ "[B/W Flyweight] Drawing black and white figure of type: " ++ ft :=
  Ne.symm (string_ne_of_append _ ft _ 1 (by decide) (by decide))

lemma figMsg_ne_bwfig (ft : String) :
    Figure.drawMsg ≠ "[B/W Flyweight] Drawing black and white figure of type: " ++ ft :=
  Ne.symm (string_ne_of_append _ ft _ 1 (by decide) (by decide))

/-! ## Claims -/

/-- C1: for every key passed to `FlyweightFactory::getFigure` (and thus
to `FigureFactory::getFigure`), the figure returned is the colored
variant exactly when the key contains the substring `"Color"`, and the
black/white variant otherwise (over any well-formed pool state). -/
theorem claim_C1 (s : SysState) (t : String) (h : goodPool s.pool) :
    (FlyweightFactory.getFigure s t).1.variant =
      (if containsColor t then FigVariant.colored else FigVariant.bw) :=
  (getFigure_spec s t h).1

/-- Witness for C1 at the concrete keys `"CircleColor"` and `"SquareBW"`
from the initial (empty-pool) state. -/
theorem claim_C1_witness :
    goodPool initState.pool ∧
    (FlyweightFactory.getFigure initState "CircleColor").1.variant =
      (if containsColor "CircleColor" then FigVariant.colored else FigVariant.bw) :=
  ⟨fun kf hkf => absurd hkf (List.not_mem_nil _),
   claim_C1 initState "CircleColor" (fun kf hkf => absurd hkf (List.not_mem_nil _))⟩

/-- C2: repeated calls to `FigureFactory::getFigure` (equivalently
`FlyweightFactory::getFigure`) with the same key return the identical
cached figure instance — after the first call for a key, any sequence of
further `getDiagram` requests later, a repeat call yields the very same
figure (reference identity, i.e. equality including the heap address)
and leaves the state untouched. -/
theorem claim_C2 (df : DiagramFactory) (ops : List (String × String × String))
    (s : SysState) (t c c' : String) :
    (FigureFactory.getFigure t c'
        (runOps df ops (FigureFactory.getFigure t c s).2.2)).1 =
      (FigureFactory.getFigure t c s).1 ∧
    FlyweightFactory.getFigure (runOps df ops (FlyweightFactory.getFigure s t).2) t =
      ((FlyweightFactory.getFigure s t).1,
        runOps df ops (FlyweightFactory.getFigure s t).2) := by
  have key := getFigure_cached _ _ _
    (runOps_pool_mono df ops _ t _ (getFigure_lookup_self s t))
  constructor
  · show (FlyweightFactory.getFigure
        (runOps df ops (FlyweightFactory.getFigure s t).2) t).1 =
      (FlyweightFactory.getFigure s t).1
    rw [key]
  · exact key

/-- C3: every element string other than `"Graph"` and `"Figure"` makes
`getDiagram` a silent no-op (no output, state bit-for-bit unchanged),
and every graph type other than `"Bar"` and `"Line"` makes
`createGraph` a silent no-op. -/
theorem claim_C3 :
    (∀ (df : DiagramFactory) (e t c : String) (s : SysState),
        e ≠ "Graph" → e ≠ "Figure" → df.getDiagram e t c s = ([], s)) ∧
    (∀ (t c : String) (s : SysState),
        t ≠ "Bar" → t ≠ "Line" → GraphFactory.createGraph t c s = ([], s)) :=
  ⟨fun df e t c s h1 h2 => getDiagram_other df e t c s h1 h2,
   fun t c s h1 h2 => createGraph_other t c s h1 h2⟩

/-- Witness for C3 at the unknown element `"Shape"` and the unknown
graph type `"Pie"`. -/
theorem claim_C3_witness :
    someDF.getDiagram "Shape" "Bar" "(1,1)" initState = ([], initState) ∧
    GraphFactory.createGraph "Pie" "(1,1)" initState = ([], initState) :=
  ⟨claim_C3.1 someDF "Shape" "Bar" "(1,1)" initState (by decide) (by decide),
   claim_C3.2 "Pie" "(1,1)" initState (by decide) (by decide)⟩

/-- C4: for the recognized types `"Bar"` and `"Line"` and any coordinate
and state, `createGraph` runs exactly the four-step Director sequence on
the selected singleton: the coordinate is stored first (visible both in
the final state and in the calc/drag lines), then the calc line, the
proxy draw line, and the drag line are printed in that order, with
nothing else. -/
theorem claim_C4 (c : String) (s : SysState) :
    GraphFactory.createGraph "Bar" c s =
      (["Bar calc at " ++ c, DrawGraph.drawMsg, "Drag Bar at " ++ c],
        { s with barCoord := c }) ∧
    GraphFactory.createGraph "Line" c s =
      (["Line calc at " ++ c, DrawGraph.drawMsg, "Drag Line at " ++ c],
        { s with lineCoord := c }) :=
  ⟨createGraph_bar c s, createGraph_line c s⟩

/-- C5: the draw proxy `DrawGraph::draw` always emits the single fixed
message, and both builders' `draw` delegate to it unchanged, whatever the
coordinate state; there is no failure path. -/
theorem claim_C5 (s : SysState) :
    DrawGraph.draw = [DrawGraph.drawMsg] ∧
    BarBuilder.draw s = [DrawGraph.drawMsg] ∧
    LineBuilder.draw s = [DrawGraph.drawMsg] :=
  ⟨rfl, rfl, rfl⟩

/-- C6: graph creation for one variant never touches the other variant's
coordinate: after any interleaved batch of `createGraph` requests, the
Bar singleton's coordinate is the coordinate of the most recent `"Bar"`
request and the Line singleton's coordinate is that of the most recent
`"Line"` request (each unchanged when its variant was never requested). -/
theorem claim_C6 (ops : List (String × String)) (s : SysState) :
    (runGraphs ops s).barCoord = (lastCoordFor "Bar" ops).getD s.barCoord ∧
    (runGraphs ops s).lineCoord = (lastCoordFor "Line" ops).getD s.lineCoord :=
  ⟨runGraphs_barCoord ops s, runGraphs_lineCoord ops s⟩

/-- C7: the flyweight pool only grows.  Every `getDiagram` request
preserves all existing key-to-figure entries, and either leaves the pool
unchanged or adds exactly one entry for a key that was not cached
before; no entry is removed or replaced. -/
theorem claim_C7 (df : DiagramFactory) (e t c : String) (s : SysState) :
    (∀ (k : String) (f : FlyweightFigure), poolLookup s.pool k = some f →
        poolLookup (df.getDiagram e t c s).2.pool k = some f) ∧
    ((df.getDiagram e t c s).2.pool = s.pool ∨
      ∃ fg, poolLookup s.pool t = none ∧
        (df.getDiagram e t c s).2.pool = (t, fg) :: s.pool) := by
  refine ⟨fun k f h => getDiagram_pool_mono df e t c s k f h, ?_⟩
  by_cases h1 : e = "Graph"
  · left
    subst h1
    rw [getDiagram_graph, createGraph_pool]
  · by_cases h2 : e = "Figure"
    · subst h2
      rw [getDiagram_figure]
      exact getFigure_pool_cases s t
    · left
      rw [getDiagram_other df e t c s h1 h2]

/-- Witness for C7: a previously cached entry survives a request that
adds a new key. -/
theorem claim_C7_witness :
    poolLookup (someDF.getDiagram "Figure" "CircleColor" "(5,5)" sampleState).2.pool
        "SquareBW" = some sampleFig :=
  (claim_C7 someDF "Figure" "CircleColor" "(5,5)" sampleState).1 "SquareBW" sampleFig
    (by decide)

/-- C8: `getDiagram("Figure","CircleColor","(5,5)")` prints exactly the
coordinate line followed by the colored flyweight's draw line, in that
order (over any well-formed pool state). -/
theorem claim_C8 (df : DiagramFactory) (s : SysState) (h : goodPool s.pool) :
    (df.getDiagram "Figure" "CircleColor" "(5,5)" s).1 =
      ["Coordinates: (5,5)",
        "[Colored Flyweight] Drawing colored figure of type: CircleColor"] := by
  rw [getDiagram_figure]
  have hs := getFigure_spec s "CircleColor" h
  have hv : (FlyweightFactory.getFigure s "CircleColor").1.variant =
      FigVariant.colored := by
    rw [hs.1]; decide
  rw [FlyweightFigure.draw_colored _ hv, hs.2]
  rfl

/-- Witness for C8 from the initial (empty-pool) state. -/
theorem claim_C8_witness :
    goodPool initState.pool ∧
    (someDF.getDiagram "Figure" "CircleColor" "(5,5)" initState).1 =
      ["Coordinates: (5,5)",
        "[Colored Flyweight] Drawing colored figure of type: CircleColor"] :=
  ⟨fun kf hkf => absurd hkf (List.not_mem_nil _),
   claim_C8 someDF initState (fun kf hkf => absurd hkf (List.not_mem_nil _))⟩

/-- C9: in every execution reachable through `DiagramFactory::getDiagram`
the real diagram classes' draw lines (`Graph::draw`'s and
`Figure::draw`'s messages) never appear in the output: on the graph path
all draw output comes from the proxy instead. -/
theorem claim_C9 (df : DiagramFactory) (e t c : String) (s : SysState) :
    Graph.drawMsg ∉ (df.getDiagram e t c s).1 ∧
    Figure.drawMsg ∉ (df.getDiagram e t c s).1 := by
  by_cases h1 : e = "Graph"
  · subst h1
    rw [getDiagram_graph]
    by_cases hb : t = "Bar"
    · subst hb
      rw [createGraph_bar]
      exact ⟨by simp [graphMsg_ne_barCalc, graphMsg_ne_proxy, graphMsg_ne_dragBar],
        by simp [figMsg_ne_barCalc, figMsg_ne_proxy, figMsg_ne_dragBar]⟩
    · by_cases hl : t = "Line"
      · subst hl
        rw [createGraph_line]
        exact ⟨by simp [graphMsg_ne_lineCalc, graphMsg_ne_proxy, graphMsg_ne_dragLine],
          by simp [figMsg_ne_lineCalc, figMsg_ne_proxy, figMsg_ne_dragLine]⟩
      · rw [createGraph_other t c s hb hl]
        simp
  · by_cases h2 : e = "Figure"
    · subst h2
      rw [getDiagram_figure]
      cases hv : (FlyweightFactory.getFigure s t).1.variant with
      | colored =>
          rw [FlyweightFigure.draw_colored _ hv]
          exact ⟨by simp [graphMsg_ne_coord, graphMsg_ne_colored],
            by simp [figMsg_ne_coord, figMsg_ne_colored]⟩
      | bw =>
          rw [FlyweightFigure.draw_bw _ hv]
          exact ⟨by simp [graphMsg_ne_coord, graphMsg_ne_bwfig],
            by simp [figMsg_ne_coord, figMsg_ne_bwfig]⟩
    · rw [getDiagram_other df e t c s h1 h2]
      simp

/-- Witness for C9 at concrete graph and figure requests. -/
theorem claim_C9_witness :
    Graph.drawMsg ∉ (someDF.getDiagram "Graph" "Bar" "(15,30)" initState).1 ∧
    Figure.drawMsg ∉ (someDF.getDiagram "Figure" "SquareBW" "(2,3)" initState).1 :=
  ⟨(claim_C9 someDF "Graph" "Bar" "(15,30)" initState).1,
   (claim_C9 someDF "Figure" "SquareBW" "(2,3)" initState).2⟩

/-- C10: all `DiagramFactory` instances share the single flyweight pool
of the process-wide `FigureFactory` singleton: `createFigure` behaves
identically on any two instances, and a figure cached through one
instance is handed back — as the identical instance — when the same key
is requested later through any other instance. -/
theorem claim_C10 (d1 d2 : DiagramFactory) (t c c' : String) (s : SysState) :
    d1.createFigure t c s = d2.createFigure t c s ∧
    (FigureFactory.getFigure t c' (d1.createFigure t c s).2).1 =
      (FigureFactory.getFigure t c s).1 := by
  constructor
  · rfl
  · show (FlyweightFactory.getFigure (FlyweightFactory.getFigure s t).2 t).1 =
      (FlyweightFactory.getFigure s t).1
    rw [getFigure_cached _ _ _ (getFigure_lookup_self s t)]
